import Mathlib

/-!
Shallow embedding of the IoT fan-speed controller backend (`server.js`).

The repository contains two variants of the same Express service:
* the push-channel variant (Socket.IO broadcasts, config initialized once at
  startup) — the commented-out upper half of `server.js`, preserved verbatim
  as the second source file;
* the serverless variant (active code in `server.js`) — no push channel, and
  every route first connects to the database and the GET routes lazily run
  `initializeConfig` before answering.

Both variants store two MongoDB collections, `Data` (readings) and `Config`
(a singleton threshold record), and expose five JSON API routes.  We embed
the document store as explicit lists of records in insertion order, request
bodies as JavaScript values (`undefined` marks an absent field, exactly as
`const { threshold } = req.body` yields `undefined` for a missing key), the
clock `Date.now()` as an explicit `now : Nat` parameter, and storage
failures as a fault environment `Env` that makes an individual storage
primitive reject with a message, mirroring a rejected mongoose promise.
-/

/-- A JavaScript value as it appears in a parsed JSON request body.
`undef` is the value of a destructured field that is absent from the body. -/
inductive JsVal where
  | undef : JsVal
  | null : JsVal
  | num : Int → JsVal
  | str : String → JsVal
  | bool : Bool → JsVal
deriving DecidableEq, Repr

/-- A stored `Data` document: `{ temperature, fanSpeed, timestamp }`
(schema `dataSchema`).  The timestamp is a `Date.now()` millisecond count. -/
structure Reading where
  temperature : JsVal
  fanSpeed : JsVal
  timestamp : Nat
deriving DecidableEq, Repr

/-- A stored `Config` document: `{ threshold, lastUpdated }`
(schema `configSchema`). -/
structure Config where
  threshold : JsVal
  lastUpdated : Nat
deriving DecidableEq, Repr

/-- The document store: the `Data` and `Config` collections, each a list of
documents in insertion (natural) order. -/
structure DB where
  readings : List Reading
  configs : List Config
deriving DecidableEq, Repr

/-- The JSON body of an HTTP response: an array of readings, a config
document (possibly `null`, as `findOne` yields on an empty collection), a
single reading, or an `{ error: message }` object. -/
inductive Body where
  | readings : List Reading → Body
  | config : Option Config → Body
  | reading : Reading → Body
  | errorMsg : String → Body
deriving DecidableEq, Repr

/-- An HTTP response: status code and JSON body. -/
structure Response where
  status : Nat
  body : Body
deriving DecidableEq, Repr

/-- `res.status(500).json({ error: err.message })`. -/
def err500 (m : String) : Response := ⟨500, Body.errorMsg m⟩

/-- Fault environment: each field, when `some m`, makes the corresponding
storage primitive reject with message `m` (a failed mongoose promise). -/
structure Env where
  connectErr : Option String
  countErr : Option String
  createErr : Option String
  findDataErr : Option String
  findConfigErr : Option String
  updateErr : Option String
  saveErr : Option String
deriving DecidableEq, Repr

/-- The environment in which every storage operation succeeds. -/
def okEnv : Env := ⟨none, none, none, none, none, none, none⟩

/-- `connectToDatabase()` — succeeds or rejects; it performs no data
mutation itself (connection caching is connectivity state, not data). -/
def connectToDatabase (env : Env) : Except String Unit :=
  match env.connectErr with
  | some m => Except.error m
  | none => Except.ok ()

/-- `Config.countDocuments()`. -/
def countDocuments (env : Env) (db : DB) : Except String Nat :=
  match env.countErr with
  | some m => Except.error m
  | none => Except.ok db.configs.length

/-- `Config.create({ threshold: 30 })` — inserts a new config document;
`lastUpdated` takes its schema default `Date.now()`, i.e. `now`. -/
def configCreateDefault (env : Env) (db : DB) (now : Nat) : Except String DB :=
  match env.createErr with
  | some m => Except.error m
  | none => Except.ok ⟨db.readings, db.configs ++ [⟨JsVal.num 30, now⟩]⟩

/-- The descending-timestamp comparison used by `.sort({ timestamp: -1 })`. -/
def tsGE (a b : Reading) : Prop := b.timestamp ≤ a.timestamp

instance : DecidableRel tsGE := fun a b => Nat.decLe b.timestamp a.timestamp

instance : IsTotal Reading tsGE := ⟨fun a b => Nat.le_total b.timestamp a.timestamp⟩

instance : IsTrans Reading tsGE := ⟨fun _ _ _ hab hbc => Nat.le_trans hbc hab⟩

/-- `Data.find().sort({ timestamp: -1 }).limit(50)` on a given collection
content: sort by timestamp descending (MongoDB does not specify the relative
order of equal keys; we realize one deterministic order), then keep the
first 50 documents. -/
def sortedTake50 (rs : List Reading) : List Reading :=
  (List.insertionSort tsGE rs).take 50

/-- The reading list returned by the `/api/data` query on a store. -/
def recentReadings (db : DB) : List Reading :=
  sortedTake50 db.readings

/-- The `Data.find().sort({ timestamp: -1 }).limit(50)` round trip,
possibly rejecting. -/
def dataFind (env : Env) (db : DB) : Except String (List Reading) :=
  match env.findDataErr with
  | some m => Except.error m
  | none => Except.ok (recentReadings db)

/-- `Config.findOne()` — the first document of the collection in natural
order, or `null` when the collection is empty. -/
def configFindOne (env : Env) (db : DB) : Except String (Option Config) :=
  match env.findConfigErr with
  | some m => Except.error m
  | none => Except.ok db.configs.head?

/-- The numeric value of a decimal digit character, if it is one. -/
def digitVal? (c : Char) : Option Nat :=
  if c.isDigit then some (c.toNat - 48) else none

/-- Reads a run of decimal digits as a number; `none` as soon as a
non-digit appears. -/
def digitsToNat? (cs : List Char) : Option Nat :=
  cs.foldl
    (fun acc c =>
      match acc, digitVal? c with
      | some n, some d => some (10 * n + d)
      | _, _ => none)
    (some 0)

/-- `Number(s)` on a non-empty string, restricted to the integer value
domain of this embedding: an optional leading minus sign followed by
decimal digits; every other string coerces to NaN here (fractional,
exponent, hex and whitespace forms are outside this embedding's value
domain, whose numbers are integers throughout). -/
def stringToNumber? (s : String) : Option Int :=
  match s.data with
  | [] => none
  | c :: cs =>
    if c = '-' then
      match cs with
      | [] => none
      | _ :: _ => (digitsToNat? cs).map (fun n => -(n : Int))
    else (digitsToNat? (c :: cs)).map (fun n => (n : Int))

/-- Mongoose's cast of an update value against a `Number` schema path:
`null` is kept, numbers are kept, the empty string becomes `null`, other
strings and booleans are coerced with `Number(...)`, and a value that
coerces to NaN fails the cast (`none` = CastError).  An `undefined` field
is simply skipped by mongoose; the handlers here guard it away before the
update, so that case is unreachable and kept as the identity. -/
def jsToNumber : JsVal → Option JsVal
  | JsVal.undef => some JsVal.undef
  | JsVal.null => some JsVal.null
  | JsVal.num n => some (JsVal.num n)
  | JsVal.str s =>
    if s = "" then some JsVal.null
    else (stringToNumber? s).map JsVal.num
  | JsVal.bool b => some (JsVal.num (if b then 1 else 0))

/-- `Config.findOneAndUpdate({}, { threshold, lastUpdated: Date.now() },
{ new: true, upsert: true })` — the update document is first cast against
`configSchema` (`threshold: Number`): a value that fails the cast rejects
the promise with a CastError (we abbreviate its message, whose exact text
encodes the offending value and path) and touches nothing.  On success it
updates the first document in place when one exists, inserts the document
otherwise, and returns the updated document (`new: true`). -/
def configFindOneAndUpdate (env : Env) (db : DB) (v : JsVal) (now : Nat) :
    Except String (Config × DB) :=
  match env.updateErr with
  | some m => Except.error m
  | none =>
    match jsToNumber v with
    | none => Except.error "Cast to Number failed at path threshold"
    | some w =>
      match db.configs with
      | [] => Except.ok (⟨w, now⟩, ⟨db.readings, [⟨w, now⟩]⟩)
      | _ :: rest => Except.ok (⟨w, now⟩, ⟨db.readings, ⟨w, now⟩ :: rest⟩)

/-- `newData.save()` — appends the document to the `Data` collection; on a
rejected save nothing is inserted. -/
def dataSave (env : Env) (db : DB) (r : Reading) : Except String DB :=
  match env.saveErr with
  | some m => Except.error m
  | none => Except.ok ⟨db.readings ++ [r], db.configs⟩

/-- An HTTP request to one of the five JSON API routes.  The payload fields
are the destructured body fields (`undef` when absent). -/
inductive Request where
  | getData : Request
  | getConfig : Request
  | postConfig : JsVal → Request
  | postEspData : JsVal → JsVal → Request
  | getEspConfig : Request
deriving DecidableEq, Repr

namespace SL

/-!
The serverless variant: the active code of `server.js`.  Each handler first
awaits `connectToDatabase()`; the GET handlers then await
`initializeConfig()`.  `initializeConfig` has its own try/catch whose catch
only logs, so a storage failure inside it does not propagate to the caller.
-/

/-- `initializeConfig` (server.js lines 221–231): count the config
documents, create the default one if none exists; any error is caught and
only logged, leaving the store as the failed operation left it. -/
def initializeConfig (env : Env) (db : DB) (now : Nat) : DB :=
  match countDocuments env db with
  | Except.error _ => db
  | Except.ok n =>
    if n = 0 then
      match configCreateDefault env db now with
      | Except.error _ => db
      | Except.ok db' => db'
    else db

/-- `GET /api/data` (server.js lines 239–251). -/
def getData (env : Env) (db : DB) (now : Nat) : Response × DB :=
  match connectToDatabase env with
  | Except.error m => (err500 m, db)
  | Except.ok _ =>
    let db1 := initializeConfig env db now
    match dataFind env db1 with
    | Except.error m => (err500 m, db1)
    | Except.ok rs => (⟨200, Body.readings rs⟩, db1)

/-- `GET /api/config` (server.js lines 253–264). -/
def getConfig (env : Env) (db : DB) (now : Nat) : Response × DB :=
  match connectToDatabase env with
  | Except.error m => (err500 m, db)
  | Except.ok _ =>
    let db1 := initializeConfig env db now
    match configFindOne env db1 with
    | Except.error m => (err500 m, db1)
    | Except.ok c => (⟨200, Body.config c⟩, db1)

/-- `POST /api/config` (server.js lines 266–289). -/
def postConfig (env : Env) (db : DB) (threshold : JsVal) (now : Nat) :
    Response × DB :=
  match connectToDatabase env with
  | Except.error m => (err500 m, db)
  | Except.ok _ =>
    if threshold = JsVal.undef then
      (⟨400, Body.errorMsg "Threshold value is required"⟩, db)
    else
      match configFindOneAndUpdate env db threshold now with
      | Except.error m => (err500 m, db)
      | Except.ok (c, db1) => (⟨200, Body.config (some c)⟩, db1)

/-- `POST /api/esp8266/data` (server.js lines 292–317). -/
def postEspData (env : Env) (db : DB) (temperature fanSpeed : JsVal)
    (now : Nat) : Response × DB :=
  match connectToDatabase env with
  | Except.error m => (err500 m, db)
  | Except.ok _ =>
    if temperature = JsVal.undef ∨ fanSpeed = JsVal.undef then
      (⟨400, Body.errorMsg "Temperature and fan speed values are required"⟩, db)
    else
      let r : Reading := ⟨temperature, fanSpeed, now⟩
      match dataSave env db r with
      | Except.error m => (err500 m, db)
      | Except.ok db1 => (⟨200, Body.reading r⟩, db1)

/-- `GET /api/esp8266/config` (server.js lines 320–331); identical in
behavior to `GET /api/config`. -/
def getEspConfig (env : Env) (db : DB) (now : Nat) : Response × DB :=
  match connectToDatabase env with
  | Except.error m => (err500 m, db)
  | Except.ok _ =>
    let db1 := initializeConfig env db now
    match configFindOne env db1 with
    | Except.error m => (err500 m, db1)
    | Except.ok c => (⟨200, Body.config c⟩, db1)

/-- Dispatch of one API request in the serverless variant. -/
def handle (env : Env) (db : DB) (now : Nat) : Request → Response × DB
  | Request.getData => getData env db now
  | Request.getConfig => getConfig env db now
  | Request.postConfig v => postConfig env db v now
  | Request.postEspData tv fv => postEspData env db tv fv now
  | Request.getEspConfig => getEspConfig env db now

end SL

/-- A Socket.IO broadcast emitted by the push-channel variant:
`config_update { threshold }` or `data_update { temperature, fanSpeed,
timestamp }`. -/
inductive Event where
  | configUpdate : JsVal → Event
  | dataUpdate : JsVal → JsVal → Nat → Event
deriving DecidableEq, Repr

/-- Result of one request in the push-channel variant: the HTTP response,
the resulting store, and the broadcasts emitted while handling it. -/
structure PushResult where
  resp : Response
  db : DB
  events : List Event
deriving DecidableEq, Repr

namespace Push

/-!
The push-channel variant (the second source file / the commented-out upper
half of `server.js`): no per-request `connectToDatabase`, `initializeConfig`
runs once at startup rather than inside the GET handlers, and the two POST
handlers broadcast over Socket.IO after a successful write.
-/

/-- `GET /api/data` (push variant lines 62–70). -/
def getData (env : Env) (db : DB) : PushResult :=
  match dataFind env db with
  | Except.error m => ⟨err500 m, db, []⟩
  | Except.ok rs => ⟨⟨200, Body.readings rs⟩, db, []⟩

/-- `GET /api/config` (push variant lines 72–79). -/
def getConfig (env : Env) (db : DB) : PushResult :=
  match configFindOne env db with
  | Except.error m => ⟨err500 m, db, []⟩
  | Except.ok c => ⟨⟨200, Body.config c⟩, db, []⟩

/-- `POST /api/config` (push variant lines 81–102); broadcasts
`config_update` with the request's threshold after the upsert succeeds. -/
def postConfig (env : Env) (db : DB) (threshold : JsVal) (now : Nat) :
    PushResult :=
  if threshold = JsVal.undef then
    ⟨⟨400, Body.errorMsg "Threshold value is required"⟩, db, []⟩
  else
    match configFindOneAndUpdate env db threshold now with
    | Except.error m => ⟨err500 m, db, []⟩
    | Except.ok (c, db1) =>
      ⟨⟨200, Body.config (some c)⟩, db1, [Event.configUpdate threshold]⟩

/-- `POST /api/esp8266/data` (push variant lines 105–128); broadcasts
`data_update` with the stored payload after the save succeeds. -/
def postEspData (env : Env) (db : DB) (temperature fanSpeed : JsVal)
    (now : Nat) : PushResult :=
  if temperature = JsVal.undef ∨ fanSpeed = JsVal.undef then
    ⟨⟨400, Body.errorMsg "Temperature and fan speed values are required"⟩, db, []⟩
  else
    let r : Reading := ⟨temperature, fanSpeed, now⟩
    match dataSave env db r with
    | Except.error m => ⟨err500 m, db, []⟩
    | Except.ok db1 =>
      ⟨⟨200, Body.reading r⟩, db1, [Event.dataUpdate temperature fanSpeed now]⟩

/-- `GET /api/esp8266/config` (push variant lines 131–138); identical in
behavior to `GET /api/config`. -/
def getEspConfig (env : Env) (db : DB) : PushResult :=
  match configFindOne env db with
  | Except.error m => ⟨err500 m, db, []⟩
  | Except.ok c => ⟨⟨200, Body.config c⟩, db, []⟩

/-- Dispatch of one API request in the push-channel variant. -/
def handle (env : Env) (db : DB) (now : Nat) : Request → PushResult
  | Request.getData => getData env db
  | Request.getConfig => getConfig env db
  | Request.postConfig v => postConfig env db v now
  | Request.postEspData tv fv => postEspData env db tv fv now
  | Request.getEspConfig => getEspConfig env db

end Push

/-- At most one `Config` document exists (the singleton invariant). -/
def singletonConfig (db : DB) : Prop := db.configs.length ≤ 1

instance (db : DB) : Decidable (singletonConfig db) :=
  Nat.decLe db.configs.length 1

/-- `initializeConfig` never touches the `Data` collection. -/
theorem readings_initializeConfig (env : Env) (db : DB) (now : Nat) :
    (SL.initializeConfig env db now).readings = db.readings := by
  unfold SL.initializeConfig countDocuments configCreateDefault
  cases env.countErr with
  | none =>
    cases env.createErr with
    | none => by_cases h : db.configs.length = 0 <;> simp [h]
    | some m => by_cases h : db.configs.length = 0 <;> simp [h]
  | some m => rfl

/-- `initializeConfig` either leaves the `Config` collection exactly as it
was, or the collection was empty and it now holds the single default
document. -/
theorem configs_initializeConfig (env : Env) (db : DB) (now : Nat) :
    (SL.initializeConfig env db now).configs = db.configs ∨
    (db.configs = [] ∧
      (SL.initializeConfig env db now).configs = [⟨JsVal.num 30, now⟩]) := by
  unfold SL.initializeConfig countDocuments configCreateDefault
  cases env.countErr with
  | none =>
    cases env.createErr with
    | none =>
      by_cases h : db.configs.length = 0
      · right
        have hnil : db.configs = [] := List.length_eq_zero.mp h
        simp [h, hnil]
      · left; simp [h]
    | some m => by_cases h : db.configs.length = 0 <;> simp [h]
  | some m => exact Or.inl rfl

/-- With a nonempty `Config` collection, `initializeConfig` is a no-op,
whatever the fault environment. -/
theorem initializeConfig_of_ne_nil (env : Env) (db : DB) (now : Nat)
    (h : db.configs ≠ []) : SL.initializeConfig env db now = db := by
  unfold SL.initializeConfig countDocuments
  cases env.countErr with
  | none =>
    have : db.configs.length ≠ 0 := fun h0 => h (List.length_eq_zero.mp h0)
    simp [this]
  | some m => rfl

/-- With an empty `Config` collection and working storage,
`initializeConfig` creates exactly the default singleton. -/
theorem initializeConfig_of_nil (env : Env) (db : DB) (now : Nat)
    (hnil : db.configs = []) (hc : env.countErr = none)
    (hcr : env.createErr = none) :
    SL.initializeConfig env db now = ⟨db.readings, [⟨JsVal.num 30, now⟩]⟩ := by
  unfold SL.initializeConfig countDocuments configCreateDefault
  simp [hc, hcr, hnil]

/-- Strict descending order on timestamps, for stating the original C1. -/
def tsGT (a b : Reading) : Prop := b.timestamp < a.timestamp

instance : DecidableRel tsGT := fun a b => Nat.decLt b.timestamp a.timestamp

/-- A store holding two readings that share the timestamp 5 — nothing in
the code prevents two saves within the same millisecond. -/
def dupTsDB : DB :=
  ⟨[⟨JsVal.num 20, JsVal.num 1, 5⟩, ⟨JsVal.num 21, JsVal.num 2, 5⟩], []⟩

/-- C1 (counterexample): on a store with two readings of equal timestamp,
the `/api/data` query result is NOT sorted strictly by timestamp
descending — both entries carry timestamp 5 — so the claim as stated fails;
only non-strict descending order holds. -/
theorem C1_strict_sort_counterexample :
    recentReadings dupTsDB =
      [⟨JsVal.num 20, JsVal.num 1, 5⟩, ⟨JsVal.num 21, JsVal.num 2, 5⟩] ∧
    ¬ List.Pairwise tsGT (recentReadings dupTsDB) := by
  constructor
  · rfl
  · intro h
    have := List.rel_of_pairwise_cons h (List.mem_singleton.mpr rfl)
    exact absurd this (by decide)

/-- C1 (amended): `GET /api/data` with working storage returns status 200
with exactly the query result `recentReadings`; that result never exceeds
50 entries, is sorted by timestamp in non-increasing (descending, ties
possible) order, and is empty — not an error — when no readings exist. -/
theorem C1_recentReadings_bounded_sorted (db : DB) (now : Nat) :
    (SL.getData okEnv db now).1 = ⟨200, Body.readings (recentReadings db)⟩ ∧
    (recentReadings db).length ≤ 50 ∧
    List.Sorted tsGE (recentReadings db) ∧
    (db.readings = [] → recentReadings db = []) := by
  refine ⟨?_, ?_, ?_, ?_⟩
  · simp [SL.getData, okEnv, connectToDatabase, dataFind, recentReadings,
      readings_initializeConfig]
  · exact List.length_take_le 50 _
  · exact (List.sorted_insertionSort tsGE db.readings).sublist
      (List.take_sublist 50 _)
  · intro h
    simp [recentReadings, sortedTake50, h]

/-- Witness for C1 at a concrete store: a singleton store queries back its
one reading, and the empty store queries back the empty list. -/
theorem C1_recentReadings_bounded_sorted_witness :
    (SL.getData okEnv ⟨[], []⟩ 0).1 = ⟨200, Body.readings []⟩ ∧
    recentReadings ⟨[], []⟩ = [] :=
  ⟨((C1_recentReadings_bounded_sorted ⟨[], []⟩ 0).1).trans (by rfl),
    (C1_recentReadings_bounded_sorted ⟨[], []⟩ 0).2.2.2 rfl⟩

/-- C2: a `POST /api/config` whose body lacks `threshold` (so the
destructured value is `undefined`) answers 400 with the exact error body
and leaves the store untouched — in both variants, and whatever faults the
later storage primitives would have produced, since none of them runs. -/
theorem C2_missing_threshold_rejected (env : Env) (db : DB) (now : Nat)
    (h : env.connectErr = none) :
    SL.postConfig env db JsVal.undef now =
      (⟨400, Body.errorMsg "Threshold value is required"⟩, db) ∧
    Push.postConfig env db JsVal.undef now =
      ⟨⟨400, Body.errorMsg "Threshold value is required"⟩, db, []⟩ := by
  constructor
  · simp [SL.postConfig, connectToDatabase, h]
  · simp [Push.postConfig]

/-- Witness for C2 on the empty store with working storage. -/
theorem C2_missing_threshold_rejected_witness :
    SL.postConfig okEnv ⟨[], []⟩ JsVal.undef 0 =
      (⟨400, Body.errorMsg "Threshold value is required"⟩, ⟨[], []⟩) :=
  (C2_missing_threshold_rejected okEnv ⟨[], []⟩ 0 rfl).1

/-- Characterization of a successful `findOneAndUpdate` upsert: the
returned document carries the cast of the given threshold and the update
time, the `Data` collection is untouched, the head of the `Config`
collection is replaced in place (or created when absent), and no duplicate
is introduced. -/
theorem configFindOneAndUpdate_ok (env : Env) (db : DB) (v : JsVal)
    (now : Nat) (c : Config) (db1 : DB)
    (h : configFindOneAndUpdate env db v now = Except.ok (c, db1)) :
    jsToNumber v = some c.threshold ∧ c.lastUpdated = now ∧
    db1.readings = db.readings ∧
    db1.configs = c :: db.configs.tail ∧
    db1.configs.length = max db.configs.length 1 := by
  unfold configFindOneAndUpdate at h
  cases hu : env.updateErr with
  | some m => rw [hu] at h; exact absurd h (by simp)
  | none =>
    rw [hu] at h
    cases hw : jsToNumber v with
    | none => rw [hw] at h; exact absurd h (by simp)
    | some w =>
      rw [hw] at h
      cases hcs : db.configs with
      | nil =>
        rw [hcs] at h
        obtain ⟨hc, hdb⟩ : c = ⟨w, now⟩ ∧
            db1 = ⟨db.readings, [⟨w, now⟩]⟩ := by
          constructor <;> [exact (Prod.mk.injEq .. ▸ Except.ok.inj h).1.symm;
            exact (Prod.mk.injEq .. ▸ Except.ok.inj h).2.symm]
        subst hc; subst hdb
        simp [hcs]
      | cons c0 rest =>
        rw [hcs] at h
        obtain ⟨hc, hdb⟩ : c = ⟨w, now⟩ ∧
            db1 = ⟨db.readings, ⟨w, now⟩ :: rest⟩ := by
          constructor <;> [exact (Prod.mk.injEq .. ▸ Except.ok.inj h).1.symm;
            exact (Prod.mk.injEq .. ▸ Except.ok.inj h).2.symm]
        subst hc; subst hdb
        simp [hcs, Nat.max_eq_left (Nat.succ_le_succ (Nat.zero_le _))]

/-- Characterization of a successful `save`: the reading is appended and
the `Config` collection is untouched. -/
theorem dataSave_ok (env : Env) (db : DB) (r : Reading) (db1 : DB)
    (h : dataSave env db r = Except.ok db1) :
    db1 = ⟨db.readings ++ [r], db.configs⟩ := by
  unfold dataSave at h
  cases hs : env.saveErr with
  | some m => rw [hs] at h; exact absurd h (by simp)
  | none => rw [hs] at h; exact (Except.ok.inj h).symm

/-- `initializeConfig` preserves the singleton invariant, whatever the
fault environment. -/
theorem singleton_initializeConfig (env : Env) (db : DB) (now : Nat)
    (h : singletonConfig db) :
    singletonConfig (SL.initializeConfig env db now) := by
  rcases configs_initializeConfig env db now with hc | ⟨_, hc⟩
  · unfold singletonConfig; rw [hc]; exact h
  · unfold singletonConfig; rw [hc]; simp

/-- Every serverless request handler preserves the singleton invariant,
whatever the fault environment. -/
theorem singleton_handle (env : Env) (db : DB) (now : Nat) (req : Request)
    (h : singletonConfig db) : singletonConfig (SL.handle env db now req).2 := by
  cases req with
  | getData =>
    simp only [SL.handle, SL.getData]
    cases hc : connectToDatabase env with
    | error m => exact h
    | ok u =>
      cases hd : dataFind env (SL.initializeConfig env db now) with
      | error m => exact singleton_initializeConfig env db now h
      | ok rs => exact singleton_initializeConfig env db now h
  | getConfig =>
    simp only [SL.handle, SL.getConfig]
    cases hc : connectToDatabase env with
    | error m => exact h
    | ok u =>
      cases hd : configFindOne env (SL.initializeConfig env db now) with
      | error m => exact singleton_initializeConfig env db now h
      | ok c => exact singleton_initializeConfig env db now h
  | getEspConfig =>
    simp only [SL.handle, SL.getEspConfig]
    cases hc : connectToDatabase env with
    | error m => exact h
    | ok u =>
      cases hd : configFindOne env (SL.initializeConfig env db now) with
      | error m => exact singleton_initializeConfig env db now h
      | ok c => exact singleton_initializeConfig env db now h
  | postConfig v =>
    simp only [SL.handle, SL.postConfig]
    cases hc : connectToDatabase env with
    | error m => exact h
    | ok u =>
      by_cases hv : v = JsVal.undef
      · rw [if_pos hv]; exact h
      · rw [if_neg hv]
        cases hu : configFindOneAndUpdate env db v now with
        | error m => exact h
        | ok p =>
          obtain ⟨c, db1⟩ := p
          obtain ⟨-, -, -, -, hlen⟩ := configFindOneAndUpdate_ok env db v now c db1 hu
          unfold singletonConfig at h ⊢
          show db1.configs.length ≤ 1
          omega
  | postEspData tv fv =>
    simp only [SL.handle, SL.postEspData]
    cases hc : connectToDatabase env with
    | error m => exact h
    | ok u =>
      by_cases hv : tv = JsVal.undef ∨ fv = JsVal.undef
      · rw [if_pos hv]; exact h
      · rw [if_neg hv]
        cases hs : dataSave env db ⟨tv, fv, now⟩ with
        | error m => exact h
        | ok db1 =>
          have := dataSave_ok env db ⟨tv, fv, now⟩ db1 hs
          subst this
          exact h

/-- C4: the Config singleton invariant.  `initializeConfig` is idempotent:
from a store with zero config documents (and working storage) it creates
exactly one document with threshold 30; from a store that already has a
config document it is a no-op, whatever the fault environment.  Every API
request handler — in particular the upsert of `POST /api/config`, which
rewrites the existing document in place — preserves "at most one Config
document exists". -/
theorem C4_config_singleton_invariant (env : Env) (db : DB) (now : Nat)
    (req : Request) :
    (db.configs = [] → env.countErr = none → env.createErr = none →
      SL.initializeConfig env db now = ⟨db.readings, [⟨JsVal.num 30, now⟩]⟩) ∧
    (db.configs ≠ [] → SL.initializeConfig env db now = db) ∧
    (singletonConfig db → singletonConfig (SL.handle env db now req).2) :=
  ⟨fun hnil hc hcr => initializeConfig_of_nil env db now hnil hc hcr,
    fun hne => initializeConfig_of_ne_nil env db now hne,
    fun h => singleton_handle env db now req h⟩

/-- Witness for C4: on the empty store, lazy initialization creates the
default singleton, and a threshold upsert keeps the store a singleton. -/
theorem C4_config_singleton_invariant_witness :
    SL.initializeConfig okEnv ⟨[], []⟩ 2 = ⟨[], [⟨JsVal.num 30, 2⟩]⟩ ∧
    singletonConfig
      (SL.handle okEnv ⟨[], [⟨JsVal.num 30, 2⟩]⟩ 3
        (Request.postConfig (JsVal.num 42))).2 :=
  ⟨(C4_config_singleton_invariant okEnv ⟨[], []⟩ 2 Request.getData).1
      rfl rfl rfl,
    (C4_config_singleton_invariant okEnv ⟨[], [⟨JsVal.num 30, 2⟩]⟩ 3
      (Request.postConfig (JsVal.num 42))).2.2 (by decide)⟩

/-- C5: from any prior store, `POST /api/config` with threshold 42 at time
`now` (a time at or after the call instant) followed by `GET /api/config`
returns the config with threshold 42 and `lastUpdated = now`, hence
`lastUpdated` is at or after the call instant. -/
theorem C5_threshold_round_trip (db : DB) (now now2 callTime : Nat)
    (h : callTime ≤ now) :
    (SL.getConfig okEnv
        (SL.postConfig okEnv db (JsVal.num 42) now).2 now2).1 =
      ⟨200, Body.config (some ⟨JsVal.num 42, now⟩)⟩ ∧
    callTime ≤ (Config.mk (JsVal.num 42) now).lastUpdated := by
  obtain ⟨rs, cs⟩ := db
  refine ⟨?_, h⟩
  cases cs with
  | nil =>
    simp [SL.postConfig, SL.getConfig, SL.initializeConfig, okEnv,
      connectToDatabase, configFindOneAndUpdate, jsToNumber, configFindOne,
      countDocuments]
  | cons c rest =>
    simp [SL.postConfig, SL.getConfig, SL.initializeConfig, okEnv,
      connectToDatabase, configFindOneAndUpdate, jsToNumber, configFindOne,
      countDocuments]

/-- Witness for C5 on the empty store: set 42 at time 3 (call instant 2),
read back at time 9. -/
theorem C5_threshold_round_trip_witness :
    (SL.getConfig okEnv
        (SL.postConfig okEnv ⟨[], []⟩ (JsVal.num 42) 3).2 9).1 =
      ⟨200, Body.config (some ⟨JsVal.num 42, 3⟩)⟩ :=
  (C5_threshold_round_trip ⟨[], []⟩ 3 9 2 (by decide)).1

/-- C6: with working storage, `GET /api/config` always answers 200 with
some config document — never a `null` body — because it runs
`initializeConfig` before `findOne`, creating the singleton when absent. -/
theorem C6_getConfig_never_null (db : DB) (now : Nat) :
    (SL.getConfig okEnv db now).1.status = 200 ∧
    ∃ c : Config, (SL.getConfig okEnv db now).1.body = Body.config (some c) := by
  obtain ⟨rs, cs⟩ := db
  cases cs with
  | nil => exact ⟨rfl, ⟨⟨JsVal.num 30, now⟩, rfl⟩⟩
  | cons c rest => exact ⟨rfl, ⟨c, rfl⟩⟩

/-- Environment where only `connectToDatabase` fails, with message `m`. -/
def connectFailEnv (m : String) : Env := ⟨some m, none, none, none, none, none, none⟩

/-- Environment where only `Config.countDocuments` fails, with message `m`. -/
def countFailEnv (m : String) : Env := ⟨none, some m, none, none, none, none, none⟩

/-- Environment where only the `Data.find` query fails, with message `m`. -/
def findDataFailEnv (m : String) : Env := ⟨none, none, none, some m, none, none, none⟩

/-- Environment where only `Config.findOne` fails, with message `m`. -/
def findConfigFailEnv (m : String) : Env := ⟨none, none, none, none, some m, none, none⟩

/-- Environment where only `Config.findOneAndUpdate` fails, with message `m`. -/
def updateFailEnv (m : String) : Env := ⟨none, none, none, none, none, some m, none⟩

/-- Environment where only `newData.save` fails, with message `m`. -/
def saveFailEnv (m : String) : Env := ⟨none, none, none, none, none, none, some m⟩

/-- C7 (counterexample): when `Config.countDocuments` fails inside
`initializeConfig` while handling `GET /api/config` on the empty store, the
failure is swallowed by `initializeConfig`'s own catch — the request
answers 200 with a `null` config body, not 500 with the error message. -/
theorem C7_swallowed_error_counterexample :
    (SL.getConfig (countFailEnv "boom") ⟨[], []⟩ 5).1 =
      ⟨200, Body.config none⟩ ∧
    (SL.getConfig (countFailEnv "boom") ⟨[], []⟩ 5).1.status ≠ 500 :=
  ⟨rfl, by decide⟩

/-- C7 (amended): a storage failure in the main body of a request handler
surfaces to the HTTP caller as a 500 response carrying the storage error
message — this holds for the connection step of all five routes, the data
query, the config reads, the config upsert, and the reading save; but a
failure inside `initializeConfig` (the lazy-creation step of the GET
routes) is caught and only logged, and the request proceeds and answers
200. -/
theorem C7_storage_errors_surface (db : DB) (now : Nat) (m : String)
    (v tv fv : JsVal) (hv : v ≠ JsVal.undef) (ht : tv ≠ JsVal.undef)
    (hf : fv ≠ JsVal.undef) :
    SL.getData (connectFailEnv m) db now = (err500 m, db) ∧
    SL.getConfig (connectFailEnv m) db now = (err500 m, db) ∧
    SL.postConfig (connectFailEnv m) db v now = (err500 m, db) ∧
    SL.postEspData (connectFailEnv m) db tv fv now = (err500 m, db) ∧
    SL.getEspConfig (connectFailEnv m) db now = (err500 m, db) ∧
    (SL.getData (findDataFailEnv m) db now).1 = err500 m ∧
    (SL.getConfig (findConfigFailEnv m) db now).1 = err500 m ∧
    (SL.getEspConfig (findConfigFailEnv m) db now).1 = err500 m ∧
    SL.postConfig (updateFailEnv m) db v now = (err500 m, db) ∧
    SL.postEspData (saveFailEnv m) db tv fv now = (err500 m, db) ∧
    SL.getConfig (countFailEnv m) db now =
      (⟨200, Body.config db.configs.head?⟩, db) := by
  refine ⟨rfl, rfl, rfl, rfl, rfl, ?_, ?_, ?_, ?_, ?_, ?_⟩
  · simp [SL.getData, connectToDatabase, findDataFailEnv, dataFind]
  · simp [SL.getConfig, connectToDatabase, findConfigFailEnv, configFindOne]
  · simp [SL.getEspConfig, connectToDatabase, findConfigFailEnv, configFindOne]
  · simp [SL.postConfig, connectToDatabase, updateFailEnv,
      configFindOneAndUpdate, hv]
  · have hor : ¬ (tv = JsVal.undef ∨ fv = JsVal.undef) :=
      fun h => h.elim ht hf
    simp only [SL.postEspData, connectToDatabase, saveFailEnv, dataSave]
    rw [if_neg hor]
  · simp [SL.getConfig, SL.initializeConfig, connectToDatabase, countFailEnv,
      countDocuments, configFindOne]

/-- Witness for C7 at concrete inputs: a failed connection surfaces as the
500 error, and a failed count inside lazy initialization does not. -/
theorem C7_storage_errors_surface_witness :
    SL.getData (connectFailEnv "down") ⟨[], []⟩ 0 =
      (err500 "down", ⟨[], []⟩) ∧
    SL.getConfig (countFailEnv "down") ⟨[], []⟩ 0 =
      (⟨200, Body.config none⟩, ⟨[], []⟩) :=
  ⟨(C7_storage_errors_surface ⟨[], []⟩ 0 "down" (JsVal.num 1) (JsVal.num 1)
      (JsVal.num 1) (by decide) (by decide) (by decide)).1,
    ((C7_storage_errors_surface ⟨[], []⟩ 0 "down" (JsVal.num 1) (JsVal.num 1)
      (JsVal.num 1) (by decide) (by decide) (by decide)).2.2.2.2.2.2.2.2.2.2).trans
      (by rfl)⟩

/-- C8 (counterexample): on a store with no config document, the two
variants disagree on `GET /api/config` in both the response and the
resulting store: the push variant answers `null` and leaves the store
unchanged, while the serverless variant lazily creates the default config
and answers it. -/
theorem C8_variants_differ_counterexample :
    (Push.handle okEnv ⟨[], []⟩ 7 Request.getConfig).resp ≠
      (SL.handle okEnv ⟨[], []⟩ 7 Request.getConfig).1 ∧
    (Push.handle okEnv ⟨[], []⟩ 7 Request.getConfig).db ≠
      (SL.handle okEnv ⟨[], []⟩ 7 Request.getConfig).2 := by
  decide

/-- C8 (amended): on every store in which the Config singleton already
exists, the two variants have identical persistence and query behavior:
for every API request (same clock, working storage) they produce the same
HTTP response and the same resulting store, differing only in the
broadcast side channel.  On a store with no config document they differ,
because the serverless variant lazily creates the singleton inside its GET
handlers while the push variant initializes only at startup. -/
theorem C8_variants_agree_on_existing_config (db : DB) (now : Nat)
    (req : Request) (h : db.configs ≠ []) :
    (Push.handle okEnv db now req).resp = (SL.handle okEnv db now req).1 ∧
    (Push.handle okEnv db now req).db = (SL.handle okEnv db now req).2 := by
  obtain ⟨rs, cs⟩ := db
  cases cs with
  | nil => exact absurd rfl h
  | cons c rest =>
    cases req with
    | getData =>
      constructor <;>
        simp [Push.handle, SL.handle, Push.getData, SL.getData,
          SL.initializeConfig, okEnv, connectToDatabase, countDocuments,
          dataFind]
    | getConfig =>
      constructor <;>
        simp [Push.handle, SL.handle, Push.getConfig, SL.getConfig,
          SL.initializeConfig, okEnv, connectToDatabase, countDocuments,
          configFindOne]
    | getEspConfig =>
      constructor <;>
        simp [Push.handle, SL.handle, Push.getEspConfig, SL.getEspConfig,
          SL.initializeConfig, okEnv, connectToDatabase, countDocuments,
          configFindOne]
    | postConfig v =>
      by_cases hv : v = JsVal.undef
      · constructor <;>
          simp [Push.handle, SL.handle, Push.postConfig, SL.postConfig,
            okEnv, connectToDatabase, hv]
      · cases hw : jsToNumber v with
        | none =>
          constructor <;>
            simp [Push.handle, SL.handle, Push.postConfig, SL.postConfig,
              okEnv, connectToDatabase, configFindOneAndUpdate, hv, hw]
        | some w =>
          constructor <;>
            simp [Push.handle, SL.handle, Push.postConfig, SL.postConfig,
              okEnv, connectToDatabase, configFindOneAndUpdate, hv, hw]
    | postEspData tv fv =>
      by_cases hor : tv = JsVal.undef ∨ fv = JsVal.undef
      · constructor <;>
          · simp only [Push.handle, SL.handle, Push.postEspData,
              SL.postEspData, okEnv, connectToDatabase]
            rw [if_pos hor, if_pos hor]
      · constructor <;>
          · simp only [Push.handle, SL.handle, Push.postEspData,
              SL.postEspData, okEnv, connectToDatabase, dataSave]
            rw [if_neg hor, if_neg hor]

/-- Witness for C8 on a store already holding the default config: both
variants answer `GET /api/config` identically and leave the store alone. -/
theorem C8_variants_agree_on_existing_config_witness :
    (Push.handle okEnv ⟨[], [⟨JsVal.num 30, 1⟩]⟩ 7 Request.getConfig).resp =
      (SL.handle okEnv ⟨[], [⟨JsVal.num 30, 1⟩]⟩ 7 Request.getConfig).1 ∧
    (Push.handle okEnv ⟨[], [⟨JsVal.num 30, 1⟩]⟩ 7 Request.getConfig).db =
      (SL.handle okEnv ⟨[], [⟨JsVal.num 30, 1⟩]⟩ 7 Request.getConfig).2 :=
  C8_variants_agree_on_existing_config ⟨[], [⟨JsVal.num 30, 1⟩]⟩ 7
    Request.getConfig (by decide)

/-- C10: in the serverless variant the three GET routes are not read-only:
each leaves the store exactly as `initializeConfig` leaves it, which — with
working storage — creates the default config (threshold 30, stamped `now`)
when no config document exists and changes nothing otherwise; the `Data`
collection is never touched by these routes. -/
theorem C10_get_routes_lazy_init (db : DB) (now : Nat) :
    (SL.getData okEnv db now).2 = SL.initializeConfig okEnv db now ∧
    (SL.getConfig okEnv db now).2 = SL.initializeConfig okEnv db now ∧
    (SL.getEspConfig okEnv db now).2 = SL.initializeConfig okEnv db now ∧
    (SL.initializeConfig okEnv db now).readings = db.readings ∧
    (db.configs = [] →
      (SL.initializeConfig okEnv db now).configs = [⟨JsVal.num 30, now⟩]) ∧
    (db.configs ≠ [] → SL.initializeConfig okEnv db now = db) := by
  refine ⟨?_, ?_, ?_, readings_initializeConfig okEnv db now, ?_, ?_⟩
  · simp [SL.getData, okEnv, connectToDatabase, dataFind]
  · simp [SL.getConfig, okEnv, connectToDatabase, configFindOne]
  · simp [SL.getEspConfig, okEnv, connectToDatabase, configFindOne]
  · intro hnil
    rw [initializeConfig_of_nil okEnv db now hnil rfl rfl]
  · exact initializeConfig_of_ne_nil okEnv db now

/-- Witness for C10 on the empty store at time 2: `GET /api/data` creates
the default config as a side effect. -/
theorem C10_get_routes_lazy_init_witness :
    (SL.getData okEnv ⟨[], []⟩ 2).2 = SL.initializeConfig okEnv ⟨[], []⟩ 2 ∧
    (SL.initializeConfig okEnv ⟨[], []⟩ 2).configs = [⟨JsVal.num 30, 2⟩] :=
  ⟨(C10_get_routes_lazy_init ⟨[], []⟩ 2).1,
    (C10_get_routes_lazy_init ⟨[], []⟩ 2).2.2.2.2.1 rfl⟩
